import Mathlib

/-!
Verification of the codemux control-plane and completion-detection code.

The Python sources under `src/codemux/` are shallowly embedded below:
pure string manipulation becomes Lean functions over `String`/`List Char`
with Python semantics (`str.strip`, `str.split`, `str.endswith`,
substring membership, `str.lower`), the asyncio polling loop of
`OutputProcessor._wait_for_response` becomes structural recursion over a
discrete half-second tick clock, and the JSON wire format of
`protocol.py` becomes an inductive `Json` value type (so
`json.dumps`/`json.loads` round-tripping is modelled at the level of
JSON values).
-/

/-- Python truthiness-relevant whitespace for `str.strip()` (ASCII part). -/
def isPySpace (c : Char) : Bool :=
  c == ' ' || c == '\t' || c == '\n' || c == '\r' || c == '\x0b' || c == '\x0c'

/-- `str.strip()` on a char list: drop whitespace from both ends. -/
def stripChars (l : List Char) : List Char :=
  ((l.dropWhile isPySpace).reverse.dropWhile isPySpace).reverse

/-- Python `s.strip()`. -/
def pyStrip (s : String) : String :=
  String.mk (stripChars s.toList)

/-- Python `s.lower()` (ASCII case mapping, as used on screen content). -/
def pyLower (s : String) : String :=
  String.mk (s.toList.map Char.toLower)

/-- Does `hay` start with `pre`? (char-list version of `str.startswith`). -/
def listStartsWith : (hay pre : List Char) → Bool
  | _, [] => true
  | [], _ :: _ => false
  | h :: hs, p :: ps => p == h && listStartsWith hs ps

/-- Does `needle` occur contiguously inside `hay`? (Python `needle in hay`). -/
def listContainsSeq : (hay needle : List Char) → Bool
  | [], needle => needle.isEmpty
  | h :: t, needle => listStartsWith (h :: t) needle || listContainsSeq t needle

/-- Python `needle in hay` on strings. -/
def pyContains (hay needle : String) : Bool :=
  listContainsSeq hay.toList needle.toList

/-- Python `s.endswith(suf)`. -/
def pyEndsWith (s suf : String) : Bool :=
  listStartsWith s.toList.reverse suf.toList.reverse

/-- Python `s.split("\n")` on a char list; always returns a non-empty list. -/
def splitNlChars : List Char → List (List Char)
  | [] => [[]]
  | c :: cs =>
    if c == '\n' then [] :: splitNlChars cs
    else
      match splitNlChars cs with
      | [] => [[c]]
      | h :: t => (c :: h) :: t

/-- Python `s.split("\n")`. -/
def pySplitLines (s : String) : List String :=
  (splitNlChars s.toList).map String.mk

/-- Python `"\n".join(lines)`. -/
def joinNl (lines : List String) : String :=
  String.intercalate "\n" lines

example : pySplitLines "" = [""] := by decide
example : pySplitLines "a\nb" = ["a", "b"] := by decide
example : pySplitLines "a\n" = ["a", ""] := by decide
example : pyStrip "  a b \n" = "a b" := by decide
example : pyContains "abc" "" = true := by decide
example : pyContains "xabcx" "abc" = true := by decide
example : pyEndsWith "web_api" "_api" = true := by decide
example : pyLower "AbC" = "abc" := by decide

/-! ## OutputProcessor (`src/codemux/output_processor.py`) -/

/-- The fixed progress-indicator substrings of
`OutputProcessor._is_claude_working` (source lines 124-136). -/
def working_indicators : List String :=
  ["thinking...", "processing...", "working on", "generating", "analyzing",
   "creating", "writing", "reading", "searching", "executing", "running"]

/-- Translation of `OutputProcessor._is_claude_working` (source lines
114-156).  The early `return True` inside the indicator loop is the
`List.any`; the final-line prompt check keeps the source's two branches,
both of which `return False`. -/
def is_claude_working (screen_content : String) : Bool :=
  if working_indicators.any (fun ind => pyContains (pyLower screen_content) ind) then
    true
  else
    let lines := pySplitLines (pyStrip screen_content)
    if lines ≠ [] then
      let last_line := pyStrip (lines.getLastD "")
      if pyEndsWith last_line ">" || pyEndsWith last_line "$" || pyEndsWith last_line ":" then
        false
      else
        false
    else
      false

example : is_claude_working "Thinking... please wait" = true := by decide
example : is_claude_working "all done\n$" = false := by decide
example : is_claude_working "plain text" = false := by decide

/-- Translation of `OutputProcessor._extract_new_content` (source lines
158-182). -/
def extract_new_content (old_content new_content : String) : String :=
  let old_lines := pySplitLines old_content
  let new_lines := pySplitLines new_content
  if old_lines.length < new_lines.length then
    pyStrip (joinNl (new_lines.drop old_lines.length))
  else if 10 ≤ new_lines.length then
    pyStrip (joinNl (new_lines.drop (new_lines.length - 10)))
  else
    pyStrip new_content

example : extract_new_content "a" "a\nb\nc" = "b\nc" := by decide

/-- Result dictionary of `OutputProcessor._wait_for_response` /
`send_command_with_response`.  Optional fields model keys absent from
some branches of the Python dict (read back with `.get` defaults in
`client.py`).  Time is counted in poll ticks of the 500ms check
interval, so `response_time` and `timeout` are naturals. -/
structure ResponseData where
  success : Bool
  output : Option String := none
  full_screen : Option String := none
  error : Option String := none
  response_time : Nat := 0
  session_name : String := ""
deriving DecidableEq, Repr

/-- One execution of the polling loop body of
`OutputProcessor._wait_for_response` (source lines 75-112), by structural
recursion on the remaining ticks before the deadline.  `capture t` is the
screen captured at tick `t` (Python `capture_screen`, whose falsy result
is the empty string); `remaining` starts at `timeout`, so the capture in
the step with `remaining = r + 1` happens at tick `timeout - r`, and the
loop guard `elapsed < timeout` is `remaining > 0`. -/
def wait_go (session_name old_content : String) (timeout : Nat)
    (capture : Nat → String) : Nat → String → ResponseData
  | 0, _ =>
    { success := false
      error := some ("Response timeout after " ++ toString timeout ++ "s")
      response_time := timeout
      session_name := session_name }
  | r + 1, last_content =>
    let t := timeout - r
    let current_content := capture t
    if current_content = "" then
      wait_go session_name old_content timeout capture r last_content
    else if current_content ≠ last_content then
      if is_claude_working current_content then
        wait_go session_name old_content timeout capture r current_content
      else
        { success := true
          output := some (extract_new_content old_content current_content)
          full_screen := some current_content
          response_time := t
          session_name := session_name }
    else
      wait_go session_name old_content timeout capture r last_content

/-- Translation of `OutputProcessor._wait_for_response` (source lines
61-112): poll every tick until the deadline, starting with
`last_content = old_content`. -/
def wait_for_response (session_name old_content : String) (timeout : Nat)
    (capture : Nat → String) : ResponseData :=
  wait_go session_name old_content timeout capture timeout old_content

/-- Translation of `OutputProcessor.process_output` (source lines
184-204). -/
def process_output (output : String) (max_length : Nat) : String :=
  if pyStrip output = "" then
    "No output received"
  else if output.toList.length ≤ max_length then
    pyStrip output
  else
    let truncated := pyStrip (String.mk (output.toList.take max_length))
    truncated ++ "...\n\n[Output truncated - " ++ toString output.toList.length
      ++ " total characters]"

example :
    wait_for_response "s" "" 2 (fun _ => "") =
      { success := false, error := some "Response timeout after 2s",
        response_time := 2, session_name := "s" } := by decide

example :
    wait_for_response "s" "old" 3 (fun t => if t = 2 then "done" else "old") =
      { success := true, output := some "done", full_screen := some "done",
        response_time := 2, session_name := "s" } := by decide

/-! ## Protocol (`src/codemux/protocol.py`) -/

/-- JSON values; `json.dumps`/`json.loads` are modelled as the identity on
this type, so wire frames are `Json` values. -/
inductive Json where
  | null : Json
  | bool : Bool → Json
  | num : Int → Json
  | str : String → Json
  | arr : List Json → Json
  | obj : List (String × Json) → Json

/-- The closed set of wire message types (`MessageType` enum, source lines
10-26). -/
inductive MessageType where
  | register
  | heartbeat
  | session_update
  | command_response
  | error
  | auth
  | register_ack
  | execute_command
  | query_status
  | control
  | auth_result
deriving DecidableEq, Repr

/-- The `.value` string of each `MessageType` member. -/
def MessageType.value : MessageType → String
  | .register => "register"
  | .heartbeat => "heartbeat"
  | .session_update => "session_update"
  | .command_response => "command_response"
  | .error => "error"
  | .auth => "auth"
  | .register_ack => "register_ack"
  | .execute_command => "execute_command"
  | .query_status => "query_status"
  | .control => "control"
  | .auth_result => "auth_result"

/-- The value table of the `MessageType` enum: the eleven members keyed
by their `.value` strings. -/
def knownTypes : List (String × MessageType) :=
  [("register", .register), ("heartbeat", .heartbeat),
   ("session_update", .session_update), ("command_response", .command_response),
   ("error", .error), ("auth", .auth), ("register_ack", .register_ack),
   ("execute_command", .execute_command), ("query_status", .query_status),
   ("control", .control), ("auth_result", .auth_result)]

/-- Python `MessageType(s)`: the enum value lookup; `some t` when `s` is a
member value, `none` for the `ValueError` on an unknown string. -/
def MessageType.fromString (s : String) : Option MessageType :=
  (knownTypes.find? (fun p => p.1 == s)).map (fun p => p.2)

/-- The eleven `.value` strings of the known message types. -/
def knownTypeStrings : List String :=
  knownTypes.map (fun p => p.1)

/-- Key lookup in a JSON object (`data["type"]` etc.; `json.loads`
produces unique keys, `find?` takes the first). -/
def jLookup (fields : List (String × Json)) (key : String) : Option Json :=
  (fields.find? (fun p => p.1 == key)).map (fun p => p.2)

/-- The `Message` dataclass (source lines 46-52).  Python never validates
the types of `timestamp` and `data` when decoding, so both are kept as
raw `Json` values; `Message.create` always fills `timestamp` with a
number. -/
structure Message where
  type : MessageType
  timestamp : Json
  data : Json

/-- Translation of `Message.to_json` (source lines 54-58), at the level of
JSON values. -/
def Message.to_json (m : Message) : Json :=
  Json.obj [("type", Json.str m.type.value), ("timestamp", m.timestamp),
            ("data", m.data)]

/-- Translation of `Message.from_json` (source lines 60-68).  `none`
models the raised exception: `KeyError` when a required field is missing,
`ValueError` when `MessageType(...)` rejects the type value, `TypeError`
when the frame is not an object or its type is not a string. -/
def Message.from_json (j : Json) : Option Message :=
  match j with
  | Json.obj fields =>
    match jLookup fields "type", jLookup fields "timestamp", jLookup fields "data" with
    | some tj, some ts, some d =>
      match tj with
      | Json.str s => (MessageType.fromString s).map (fun t => ⟨t, ts, d⟩)
      | _ => none
    | _, _, _ => none
  | _ => none

/-- Translation of `Message.create` (source lines 70-73); `time.time()` is
passed in as `now`. -/
def Message.create (msg_type : MessageType) (data : Json) (now : Json) : Message :=
  ⟨msg_type, now, data⟩

/-! ## CommandRouter (`src/codemux/command_router.py`) -/

/-- Translation of `CommandRouter.find_session` (source lines 68-92).
`sessions` is the key list of the router's session dict in insertion
order; the three `for name in self.sessions` loops with early `return`
are the three `find?` tiers. -/
def find_session (sessions : List String) (session_id : String) : Option String :=
  match sessions.find? (fun name => name == session_id) with
  | some name => some name
  | none =>
    match sessions.find? (fun name => pyEndsWith name ("_" ++ session_id)) with
    | some name => some name
    | none =>
      sessions.find? (fun name => pyContains (pyLower name) (pyLower session_id))

example : find_session ["web_api", "web_frontend"] "web_api" = some "web_api" := by decide
example : find_session ["web_api", "web_frontend"] "api" = some "web_api" := by decide
example : find_session ["web_api", "web_frontend"] "FRONT" = some "web_frontend" := by decide
example : find_session ["web_api"] "db" = none := by decide
example : find_session ["alpha", "beta_"] "" = some "beta_" := by decide

/-- Router state: the known session names (keys of `self.sessions`, in
insertion order) and the active session. -/
structure RouterState where
  sessions : List String
  current_session : Option String
deriving DecidableEq, Repr

/-- Translation of `CommandRouter.handle_session_command` (source lines
153-198).  The tmux round trip
`output_processor.send_command_with_response` is passed in as
`exec_result`; the elapsed-seconds rendering inside the success banner is
abstracted to the tick count (claims do not touch that banner). -/
def handle_session_command (st : RouterState) (session_id : Option String)
    (command : String) (exec_result : ResponseData) : String × RouterState :=
  match session_id with
  | none => ("No session specified", st)
  | some sid =>
    match find_session st.sessions sid with
    | none =>
      ("Session '" ++ sid ++ "' not found. Available sessions: "
        ++ String.intercalate ", " st.sessions, st)
    | some matched =>
      let st' : RouterState := { st with current_session := some matched }
      if command = "" then
        ("Switched to session '" ++ matched ++ "'", st')
      else if exec_result.success then
        ("[" ++ matched ++ "] (" ++ toString exec_result.response_time ++ ")\n"
          ++ process_output (exec_result.output.getD "") 500, st')
      else
        ("[" ++ matched ++ "] Error: " ++ exec_result.error.getD "Unknown error", st')

/-! ## Server (`src/codemux/server.py`) -/

/-- The `SessionInfo` dataclass of `protocol.py` (source lines 76-94). -/
structure SessionInfo where
  name : String
  tmux_session_name : String
  current_path : String
  dirname : String
  pane_id : Option String := none
  window_name : Option String := none
deriving DecidableEq, Repr

/-- `ClientConnection` (server source lines 30-41).  `sessions` is the
value list of the per-client session dict keyed by `SessionInfo.name`, in
insertion order; `last_heartbeat` is in seconds. -/
structure ClientConnection where
  client_id : String
  hostname : String
  platform : String
  sessions : List SessionInfo
  last_heartbeat : Int
  authenticated : Bool
deriving DecidableEq, Repr

/-- One entry of the derived global session list built by
`CodemuxServer._update_sessions` (source lines 249-266). -/
structure GlobalSession where
  name : String
  tmux_session_name : String
  current_path : String
  dirname : String
  client_id : String
  hostname : String
deriving DecidableEq, Repr

/-- Server registry state: value list of `self.clients` (insertion order)
plus the derived `self.all_sessions`. -/
structure ServerState where
  clients : List ClientConnection
  all_sessions : List GlobalSession
deriving DecidableEq, Repr

/-- Translation of `CodemuxServer._update_sessions` (source lines
249-266). -/
def update_sessions (clients : List ClientConnection) : List GlobalSession :=
  (clients.map (fun c => c.sessions.map (fun s =>
    { name := s.name, tmux_session_name := s.tmux_session_name,
      current_path := s.current_path, dirname := s.dirname,
      client_id := c.client_id, hostname := c.hostname }))).flatten

/-- Server heartbeat interval constant (seconds, source line 69). -/
def heartbeat_interval : Int := 30

/-- Server heartbeat timeout constant (seconds, source line 70). -/
def heartbeat_timeout : Int := 90

/-- One pass of `CodemuxServer._monitor_heartbeats` (source lines
268-287) composed with the `_handle_client` cleanup it triggers (source
lines 168-174): a client is dead when `now - last_heartbeat >
heartbeat_timeout`; closing its websocket makes its handler remove it
from `self.clients` and recompute `self.all_sessions`. -/
def monitor_heartbeats_tick (st : ServerState) (now : Int) : ServerState :=
  let survivors :=
    st.clients.filter (fun c => !decide (heartbeat_timeout < now - c.last_heartbeat))
  { clients := survivors, all_sessions := update_sessions survivors }

/-- Search of `CodemuxServer.execute_command` lines 303-307: the first
client (in registry order) whose session dict contains `session_name`. -/
def find_owner (clients : List ClientConnection) (session_name : String) :
    Option ClientConnection :=
  clients.find? (fun c => c.sessions.any (fun s => s.name == session_name))

/-- Translation of `ProtocolHelper.create_execute_command` (protocol
source lines 145-158). -/
def create_execute_command (request_id session_name command : String)
    (timeout : Int) (now : Json) : Message :=
  Message.create .execute_command
    (Json.obj [("request_id", Json.str request_id),
               ("session_name", Json.str session_name),
               ("command", Json.str command),
               ("timeout", Json.num timeout)]) now

/-- Result dict of `CodemuxServer.execute_command`: `success` plus the
keys present in each branch. -/
structure ExecCmdResult where
  success : Bool
  error : Option String := none
  request_id : Option String := none
  status : Option String := none
deriving DecidableEq, Repr

/-- Translation of `CodemuxServer.execute_command` (source lines
289-332).  The fresh `uuid.uuid4()` and `time.time()` are passed in as
`request_id` and `now`; the second component is the `EXECUTE_COMMAND`
frame sent to the owning client (`none` when nothing was sent).  The
source returns `{"success": True, "request_id": ..., "status": "sent"}`
immediately after sending, without awaiting the response. -/
def execute_command (st : ServerState) (session_name command : String)
    (timeout : Int) (request_id : String) (now : Json) :
    ExecCmdResult × Option Message :=
  match find_owner st.clients session_name with
  | none =>
    ({ success := false,
       error := some ("Session '" ++ session_name ++ "' not found") }, none)
  | some _ =>
    ({ success := true, request_id := some request_id, status := some "sent" },
     some (create_execute_command request_id session_name command timeout now))

/-- Translation of `CodemuxServer._handle_command_response` (source lines
239-247): the body only logs, so the server state is returned
unchanged and no pending request is resolved. -/
def handle_command_response (st : ServerState) (_msg : Message) : ServerState :=
  st

/-! ## Client (`src/codemux/client.py`) -/

/-- Translation of `ProtocolHelper.create_command_response` (protocol
source lines 123-143). -/
def create_command_response (request_id session_name : String) (success : Bool)
    (output : String) (response_time : Nat) (error : Option String)
    (now : Json) : Message :=
  Message.create .command_response
    (Json.obj [("request_id", Json.str request_id),
               ("session_name", Json.str session_name),
               ("success", Json.bool success),
               ("output", Json.str output),
               ("response_time", Json.num (Int.ofNat response_time)),
               ("error", match error with
                 | none => Json.null
                 | some e => Json.str e)]) now

/-- Translation of `CodemuxClient._handle_execute_command` (source lines
176-209): the completion-detector result dict is turned into a
`COMMAND_RESPONSE` frame via `.get` defaults and sent back; no exception
escapes to the coordinator. -/
def handle_execute_command (request_id session_name : String)
    (result : ResponseData) (now : Json) : Message :=
  create_command_response request_id session_name result.success
    (result.output.getD "") result.response_time result.error now

/-! ## Claim theorems -/

/-- Claim C1, counterexample: the snapshot "all done\n$" contains no
progress indicator and its final non-empty line ends with "$", yet
`_is_claude_working` classifies it as idle (`false`), not as still
working — refuting that a trailing prompt terminator is "treated as
still working, never as conclusively idle". -/
theorem prompt_terminator_snapshot_is_idle :
    is_claude_working "all done\n$" = false := by decide

/-- Claim C1, amended: the detector classifies a snapshot as working
exactly when it contains a progress-indicator substring
(case-insensitively); the final-line prompt-terminator check has no
effect, since both of its branches return not-working, so a snapshot
whose final non-empty line ends with one of the prompt terminators and
has no indicator is classified idle. -/
theorem is_claude_working_iff_indicator (s : String) :
    is_claude_working s =
      working_indicators.any (fun ind => pyContains (pyLower s) ind) := by
  by_cases h : working_indicators.any (fun ind => pyContains (pyLower s) ind) = true
  · simp [is_claude_working, h]
  · rw [Bool.not_eq_true] at h
    rw [h]
    simp only [is_claude_working, h, Bool.false_eq_true, if_false]
    split <;> [split <;> rfl; rfl]

/-- Claim C3: decoding the encoding round-trips for every message type in
the closed set, every timestamp value and every JSON data value. -/
theorem message_roundtrip (t : MessageType) (d now : Json) :
    Message.from_json (Message.to_json (Message.create t d now)) =
      some (Message.create t d now) := by
  cases t <;> rfl

/-- Claim C4: `find_session` applies a fixed precedence with first match
wins — a name exactly equal to the token beats a name ending in
`"_" ++ token`, which beats a case-insensitive substring match; with no
match in any tier the result is `none`. -/
theorem find_session_precedence (sessions : List String) (sid : String) :
    (sid ∈ sessions → find_session sessions sid = some sid)
    ∧ (sid ∉ sessions →
        (∃ n ∈ sessions, pyEndsWith n ("_" ++ sid) = true) →
        ∃ n, find_session sessions sid = some n ∧ n ∈ sessions ∧
          pyEndsWith n ("_" ++ sid) = true)
    ∧ (sid ∉ sessions →
        (∀ n ∈ sessions, pyEndsWith n ("_" ++ sid) = false) →
        (∃ n ∈ sessions, pyContains (pyLower n) (pyLower sid) = true) →
        ∃ n, find_session sessions sid = some n ∧ n ∈ sessions ∧
          pyContains (pyLower n) (pyLower sid) = true)
    ∧ ((∀ n ∈ sessions, n ≠ sid ∧ pyEndsWith n ("_" ++ sid) = false ∧
          pyContains (pyLower n) (pyLower sid) = false) →
        find_session sessions sid = none) := by
  have t1none : sid ∉ sessions →
      sessions.find? (fun name => name == sid) = none := by
    intro hmem
    rw [List.find?_eq_none]
    intro x hx
    simp only [beq_iff_eq]
    rintro rfl
    exact hmem hx
  refine ⟨?_, ?_, ?_, ?_⟩
  · intro hmem
    rcases hf : sessions.find? (fun name => name == sid) with _ | n
    · rw [List.find?_eq_none] at hf
      exact absurd (by simp : (sid == sid) = true) (hf sid hmem)
    · have hn : n = sid := by simpa using List.find?_some hf
      simp only [find_session, hf, hn]
  · intro hmem hex
    have h1 := t1none hmem
    rcases hf2 : sessions.find? (fun name => pyEndsWith name ("_" ++ sid)) with _ | n
    · rw [List.find?_eq_none] at hf2
      obtain ⟨n, hn, hp⟩ := hex
      exact absurd hp (by simpa using hf2 n hn)
    · exact ⟨n, by simp only [find_session, h1, hf2],
        List.mem_of_find?_eq_some hf2, by simpa using List.find?_some hf2⟩
  · intro hmem hsuf hex
    have h1 := t1none hmem
    have h2 : sessions.find? (fun name => pyEndsWith name ("_" ++ sid)) = none := by
      rw [List.find?_eq_none]
      intro x hx
      simp [hsuf x hx]
    rcases hf3 : sessions.find?
        (fun name => pyContains (pyLower name) (pyLower sid)) with _ | n
    · rw [List.find?_eq_none] at hf3
      obtain ⟨n, hn, hp⟩ := hex
      exact absurd hp (by simpa using hf3 n hn)
    · exact ⟨n, by simp only [find_session, h1, h2, hf3],
        List.mem_of_find?_eq_some hf3, by simpa using List.find?_some hf3⟩
  · intro hall
    have h1 : sessions.find? (fun name => name == sid) = none := by
      rw [List.find?_eq_none]
      intro x hx
      simp [(hall x hx).1]
    have h2 : sessions.find? (fun name => pyEndsWith name ("_" ++ sid)) = none := by
      rw [List.find?_eq_none]
      intro x hx
      simp [(hall x hx).2.1]
    have h3 : sessions.find?
        (fun name => pyContains (pyLower name) (pyLower sid)) = none := by
      rw [List.find?_eq_none]
      intro x hx
      simp [(hall x hx).2.2]
    simp only [find_session, h1, h2, h3]

/-- Witness for C4: the suffix tier fires on a concrete registry where
the token is no exact match. -/
theorem find_session_precedence_witness :
    ∃ n, find_session ["web_api", "web_frontend"] "api" = some n ∧
      n ∈ ["web_api", "web_frontend"] ∧ pyEndsWith n ("_" ++ "api") = true :=
  (find_session_precedence ["web_api", "web_frontend"] "api").2.1 (by decide)
    ⟨"web_api", by decide, by decide⟩

/-- Claim C5: delta extraction obeys the three cases in order — strictly
more lines than the baseline yields the appended lines, otherwise at
least 10 lines yields the last 10 lines, otherwise the whole new
snapshot. -/
theorem extract_new_content_cases (old_content new_content : String) :
    ((pySplitLines old_content).length < (pySplitLines new_content).length →
      extract_new_content old_content new_content =
        pyStrip (joinNl ((pySplitLines new_content).drop
          (pySplitLines old_content).length)))
    ∧ (¬ (pySplitLines old_content).length < (pySplitLines new_content).length →
        10 ≤ (pySplitLines new_content).length →
        extract_new_content old_content new_content =
          pyStrip (joinNl ((pySplitLines new_content).drop
            ((pySplitLines new_content).length - 10))))
    ∧ (¬ (pySplitLines old_content).length < (pySplitLines new_content).length →
        (pySplitLines new_content).length < 10 →
        extract_new_content old_content new_content = pyStrip new_content) := by
  refine ⟨fun h => ?_, fun h h10 => ?_, fun h h10 => ?_⟩
  · simp only [extract_new_content]
    rw [if_pos h]
  · simp only [extract_new_content]
    rw [if_neg h, if_pos h10]
  · simp only [extract_new_content]
    rw [if_neg h, if_neg (by omega)]

/-- Witness for C5: a baseline of one line and a new snapshot of three
lines hit the appended-lines case. -/
theorem extract_new_content_cases_witness :
    extract_new_content "a" "a\nb\nc" =
      pyStrip (joinNl ((pySplitLines "a\nb\nc").drop
        (pySplitLines "a").length)) :=
  (extract_new_content_cases "a" "a\nb\nc").1 (by decide)

/-- A concrete discovered session used by the server-side scenarios. -/
def sampleSession : SessionInfo :=
  { name := "host_a", tmux_session_name := "claude_a",
    current_path := "/tmp/a", dirname := "a" }

/-- A concrete registered client owning `sampleSession`, whose last
heartbeat was at t = 0. -/
def sampleClient : ClientConnection :=
  { client_id := "c1", hostname := "host", platform := "linux",
    sessions := [sampleSession], last_heartbeat := 0, authenticated := true }

/-- Claim C2, counterexample: a client owning "host_a" is registered and
no `COMMAND_RESPONSE` ever arrives, yet `execute_command` neither awaits
a correlated response nor returns a Timeout error — it immediately
reports success with status "sent". -/
theorem execute_command_counterexample :
    (execute_command ⟨[sampleClient], update_sessions [sampleClient]⟩
        "host_a" "pwd" 5 "rid-1" (Json.num 0)).1.success = true ∧
    (execute_command ⟨[sampleClient], update_sessions [sampleClient]⟩
        "host_a" "pwd" 5 "rid-1" (Json.num 0)).1.status = some "sent" :=
  ⟨rfl, rfl⟩

/-- Claim C2, amended: `execute_command` is fire-and-forget — when some
client owns the session it sends one `EXECUTE_COMMAND` frame carrying the
fresh request id and returns success/"sent" immediately, independent of
any response or timeout; when no client owns the session it returns a
not-found error; and `_handle_command_response` only logs, so it never
resolves a request or changes server state (zero outcomes are delivered
per request id). -/
theorem execute_command_fire_and_forget (st : ServerState)
    (session_name command request_id : String) (timeout : Int) (now : Json) :
    (find_owner st.clients session_name = none →
      execute_command st session_name command timeout request_id now =
        ({ success := false,
           error := some ("Session '" ++ session_name ++ "' not found") },
         none))
    ∧ (∀ c, find_owner st.clients session_name = some c →
        execute_command st session_name command timeout request_id now =
          ({ success := true, request_id := some request_id,
             status := some "sent" },
           some (create_execute_command request_id session_name command
             timeout now)))
    ∧ (∀ msg, handle_command_response st msg = st) := by
  refine ⟨fun h => ?_, fun c hc => ?_, fun _ => rfl⟩
  · simp [execute_command, h]
  · simp [execute_command, hc]

/-- Witness for C2: the amended behaviour at the concrete one-client
registry. -/
theorem execute_command_fire_and_forget_witness :
    execute_command ⟨[sampleClient], update_sessions [sampleClient]⟩
        "host_a" "pwd" 5 "rid-1" (Json.num 0) =
      ({ success := true, request_id := some "rid-1", status := some "sent" },
       some (create_execute_command "rid-1" "host_a" "pwd" 5 (Json.num 0))) :=
  (execute_command_fire_and_forget ⟨[sampleClient], update_sessions [sampleClient]⟩
    "host_a" "pwd" "rid-1" 5 (Json.num 0)).2.1 sampleClient rfl

/-- Claim C6, counterexample: `sampleClient` stopped heartbeating at
t = 0; at the first sweep tick at t = 90 its age is exactly the
threshold, the strict comparison `now - last_heartbeat > 90` fails, and
it is NOT evicted — refuting eviction "at the first sweep tick at or
after t=90s". -/
theorem heartbeat_sweep_counterexample :
    (monitor_heartbeats_tick ⟨[sampleClient], update_sessions [sampleClient]⟩
        90).clients = [sampleClient] ∧
    sampleClient.last_heartbeat = 0 :=
  ⟨rfl, rfl⟩

/-- Claim C6, amended: the sweep evicts exactly the clients whose
heartbeat age strictly exceeds the 90s threshold (so an agent silent
since t = 0 survives the tick at t = 90 and is evicted at the first tick
strictly after t = 90, i.e. t = 120 with 30s ticks); agents within the
threshold are never evicted, and the derived global session list is
recomputed from the survivors. -/
theorem heartbeat_sweep_eviction (st : ServerState) (now : Int) :
    (∀ c, c ∈ (monitor_heartbeats_tick st now).clients ↔
        c ∈ st.clients ∧ now - c.last_heartbeat ≤ heartbeat_timeout)
    ∧ ((monitor_heartbeats_tick st now).all_sessions =
        update_sessions (monitor_heartbeats_tick st now).clients)
    ∧ (∀ c ∈ st.clients, c.last_heartbeat = 0 →
        (c ∉ (monitor_heartbeats_tick st now).clients ↔
          heartbeat_timeout < now)) := by
  have hmem : ∀ c, c ∈ (monitor_heartbeats_tick st now).clients ↔
      c ∈ st.clients ∧ now - c.last_heartbeat ≤ heartbeat_timeout := by
    intro c
    simp only [monitor_heartbeats_tick, List.mem_filter, Bool.not_eq_eq_eq_not,
      Bool.not_true, decide_eq_false_iff_not, not_lt]
  refine ⟨hmem, rfl, fun c hc h0 => ?_⟩
  rw [hmem c, h0]
  simp only [Int.sub_zero]
  constructor
  · intro hn
    by_contra hle
    exact hn ⟨hc, by omega⟩
  · intro hlt hmem2
    omega

/-- Witness for C6: at the t = 120 tick the silent client is evicted. -/
theorem heartbeat_sweep_eviction_witness :
    sampleClient ∉ (monitor_heartbeats_tick
        ⟨[sampleClient], update_sessions [sampleClient]⟩ 120).clients :=
  ((heartbeat_sweep_eviction ⟨[sampleClient], update_sessions [sampleClient]⟩
      120).2.2 sampleClient (by decide) rfl).mpr (by decide)

/-- Claim C7, counterexample: against a registry knowing session
"host_a", dispatching to the unknown session "missing" returns an error
payload that does not carry the known session names — "host_a" does not
occur in it. -/
theorem session_not_found_counterexample :
    (execute_command ⟨[sampleClient], update_sessions [sampleClient]⟩
        "missing" "ls" 5 "rid-2" (Json.num 0)).1 =
      { success := false, error := some "Session 'missing' not found" } ∧
    pyContains "Session 'missing' not found" "host_a" = false :=
  ⟨rfl, by decide⟩

/-- Claim C7, amended: only the router attaches the known-names list — on
no match, `handle_session_command` returns a message carrying every
currently known session name (the empty list for an empty registry),
while the server's `execute_command` returns a not-found error that
carries only the requested name, without the known-names list. -/
theorem session_not_found_messages (rst : RouterState) (sid command : String)
    (r : ResponseData) (st : ServerState)
    (session_name cmd request_id : String) (timeout : Int) (now : Json) :
    (find_session rst.sessions sid = none →
      (handle_session_command rst (some sid) command r).1 =
        "Session '" ++ sid ++ "' not found. Available sessions: "
          ++ String.intercalate ", " rst.sessions)
    ∧ (find_owner st.clients session_name = none →
        (execute_command st session_name cmd timeout request_id now).1 =
          { success := false,
            error := some ("Session '" ++ session_name ++ "' not found") }) := by
  refine ⟨fun h => ?_, fun h => ?_⟩
  · simp [handle_session_command, h]
  · simp [execute_command, h]

/-- Witness for C7: the empty-registry scenario on both sides — the
router message renders the empty known-names list, the server error
carries none. -/
theorem session_not_found_messages_witness :
    (handle_session_command ⟨[], none⟩ (some "missing") "ls"
        { success := false }).1 =
      "Session 'missing' not found. Available sessions: " ∧
    (execute_command ⟨[], []⟩ "missing" "ls" 5 "rid-3" (Json.num 0)).1 =
      { success := false, error := some "Session 'missing' not found" } :=
  ⟨(session_not_found_messages ⟨[], none⟩ "missing" "ls" { success := false }
      ⟨[], []⟩ "missing" "ls" "rid-3" 5 (Json.num 0)).1 rfl,
   (session_not_found_messages ⟨[], none⟩ "missing" "ls" { success := false }
      ⟨[], []⟩ "missing" "ls" "rid-3" 5 (Json.num 0)).2 rfl⟩

/-- Claim C8: decoding fails (no `Message` is produced) for every frame
whose type string is not one of the eleven known message types or that
lacks any of the required fields `type`, `timestamp`, `data`; and
`MessageType.fromString` accepts exactly the eleven known strings. -/
theorem from_json_rejects_invalid :
    (∀ fields : List (String × Json),
      (jLookup fields "type" = none ∨ jLookup fields "timestamp" = none ∨
        jLookup fields "data" = none) →
      Message.from_json (Json.obj fields) = none)
    ∧ (∀ (fields : List (String × Json)) (s : String),
        jLookup fields "type" = some (Json.str s) →
        MessageType.fromString s = none →
        Message.from_json (Json.obj fields) = none)
    ∧ (∀ s : String, MessageType.fromString s = none ↔ s ∉ knownTypeStrings) := by
  refine ⟨?_, ?_, ?_⟩
  · intro fields h
    rcases htyp : jLookup fields "type" with _ | tj
    · simp [Message.from_json, htyp]
    · rcases hts : jLookup fields "timestamp" with _ | ts
      · simp [Message.from_json, htyp, hts]
      · rcases hd : jLookup fields "data" with _ | d
        · simp [Message.from_json, htyp, hts, hd]
        · simp_all
  · intro fields s htyp hfrom
    rcases hts : jLookup fields "timestamp" with _ | ts
    · simp [Message.from_json, htyp, hts]
    · rcases hd : jLookup fields "data" with _ | d
      · simp [Message.from_json, htyp, hts, hd]
      · simp [Message.from_json, htyp, hts, hd, hfrom]
  · intro s
    unfold MessageType.fromString
    rw [Option.map_eq_none', List.find?_eq_none]
    constructor
    · intro h hmem
      rw [knownTypeStrings, List.mem_map] at hmem
      obtain ⟨p, hp, hps⟩ := hmem
      exact h p hp (by simp [hps])
    · intro hnot p hp hbeq
      exact hnot (by
        rw [knownTypeStrings, List.mem_map]
        exact ⟨p, hp, by simpa using hbeq⟩)

/-- Witness for C8: a frame with all required fields but the unknown type
string "bogus" is rejected. -/
theorem from_json_rejects_invalid_witness :
    Message.from_json (Json.obj [("type", Json.str "bogus"),
      ("timestamp", Json.num 0), ("data", Json.obj [])]) = none :=
  from_json_rejects_invalid.2.1 _ "bogus" rfl rfl

/-- Helper for C9: when every capture before the deadline is either empty
(failed capture) or still classified as working, the polling loop runs to
the deadline and returns the timeout dictionary, whatever the evolving
`last_content` is. -/
theorem wait_go_no_idle (session_name old_content : String) (timeout : Nat)
    (capture : Nat → String)
    (h : ∀ t, 1 ≤ t → t ≤ timeout →
      capture t = "" ∨ is_claude_working (capture t) = true) :
    ∀ r, r ≤ timeout → ∀ last_content,
      wait_go session_name old_content timeout capture r last_content =
        { success := false,
          error := some ("Response timeout after " ++ toString timeout ++ "s"),
          response_time := timeout, session_name := session_name } := by
  intro r
  induction r with
  | zero => intro _ _; rfl
  | succ n ih =>
    intro hr last_content
    have ht1 : 1 ≤ timeout - n := by omega
    have ht2 : timeout - n ≤ timeout := by omega
    by_cases hc0 : capture (timeout - n) = ""
    · simp only [wait_go, hc0, if_pos]
      simpa [hc0] using ih (by omega) last_content
    · have hw : is_claude_working (capture (timeout - n)) = true := by
        rcases h (timeout - n) ht1 ht2 with hc | hw
        · exact absurd hc hc0
        · exact hw
      by_cases hne : capture (timeout - n) ≠ last_content
      · simp only [wait_go]
        rw [if_neg hc0, if_pos hne, if_pos hw]
        exact ih (by omega) _
      · simp only [wait_go]
        rw [if_neg hc0, if_neg hne]
        exact ih (by omega) _

/-- Claim C9: if the deadline elapses with no snapshot classified as idle
(every capture before the deadline is empty or still working), the
completion detector returns a failure outcome carrying the elapsed time —
never a success — and the agent turns it into a `COMMAND_RESPONSE` frame
with `success = false`, not an exception. -/
theorem wait_for_response_timeout_failure (session_name old_content : String)
    (timeout : Nat) (capture : Nat → String) (request_id : String) (now : Json)
    (h : ∀ t, 1 ≤ t → t ≤ timeout →
      capture t = "" ∨ is_claude_working (capture t) = true) :
    wait_for_response session_name old_content timeout capture =
      { success := false,
        error := some ("Response timeout after " ++ toString timeout ++ "s"),
        response_time := timeout, session_name := session_name }
    ∧ (handle_execute_command request_id session_name
        (wait_for_response session_name old_content timeout capture) now).type =
        MessageType.command_response
    ∧ ∃ fields, (handle_execute_command request_id session_name
          (wait_for_response session_name old_content timeout capture) now).data =
        Json.obj fields ∧ jLookup fields "success" = some (Json.bool false) := by
  have hmain : wait_for_response session_name old_content timeout capture =
      { success := false,
        error := some ("Response timeout after " ++ toString timeout ++ "s"),
        response_time := timeout, session_name := session_name } :=
    wait_go_no_idle session_name old_content timeout capture h timeout
      le_rfl old_content
  refine ⟨hmain, ?_, ?_⟩
  · rw [hmain]
    rfl
  · rw [hmain]
    exact ⟨[("request_id", Json.str request_id),
            ("session_name", Json.str session_name),
            ("success", Json.bool false),
            ("output", Json.str ""),
            ("response_time", Json.num (Int.ofNat timeout)),
            ("error", Json.str ("Response timeout after "
              ++ toString timeout ++ "s"))], rfl, rfl⟩

/-- Witness for C9: a two-tick deadline during which every capture fails
(empty screen) ends in the timeout failure. -/
theorem wait_for_response_timeout_failure_witness :
    wait_for_response "host_a" "base" 2 (fun _ => "") =
      { success := false, error := some "Response timeout after 2s",
        response_time := 2, session_name := "host_a" } :=
  (wait_for_response_timeout_failure "host_a" "base" 2 (fun _ => "") "rid-4"
    (Json.num 0) (fun _ _ _ => Or.inl rfl)).1

/-- Helper for C10: the empty needle occurs in every haystack (Python
`"" in s` is always `True`). -/
theorem listContainsSeq_nil (hay : List Char) :
    listContainsSeq hay [] = true := by
  cases hay <;> simp [listContainsSeq, listStartsWith, List.isEmpty]

/-- Helper for C10: with the always-true substring predicate of the empty
token, the third tier returns the first registered name. -/
theorem find?_empty_token_eq_head (l : List String) :
    l.find? (fun name => pyContains (pyLower name) (pyLower "")) = l.head? := by
  have hp : ∀ nm : String, pyContains (pyLower nm) (pyLower "") = true := by
    intro nm
    show listContainsSeq (pyLower nm).toList (pyLower "").toList = true
    have h0 : (pyLower "").toList = [] := rfl
    rw [h0]
    exact listContainsSeq_nil _
  cases l with
  | nil => rfl
  | cons a t => simp only [List.find?, hp a, List.head?]

/-- Claim C10, counterexample: in the registry `["alpha", "beta_"]` (no
empty names), `find_session ""` returns `"beta_"` via the suffix tier —
`"beta_"` ends with `"_" ++ ""` — and not the first registered name
`"alpha"`. -/
theorem find_session_empty_token_counterexample :
    find_session ["alpha", "beta_"] "" = some "beta_" ∧
    ["alpha", "beta_"].head? = some "alpha" ∧ ("beta_" : String) ≠ "alpha" := by
  refine ⟨by decide, rfl, by decide⟩

/-- Claim C10, amended: for a registry with no empty name, the empty
token skips the exact tier, and resolves to the first name ending in
`"_"` if any (suffix tier with the bare underscore), otherwise to the
first registered name (the empty token trivially satisfies the substring
tier); `find_session ""` is `none` exactly for the empty registry. -/
theorem find_session_empty_token (sessions : List String)
    (h : "" ∉ sessions) :
    find_session sessions "" =
      (match sessions.find? (fun name => pyEndsWith name "_") with
       | some name => some name
       | none => sessions.head?)
    ∧ (find_session sessions "" = none ↔ sessions = []) := by
  have h1 : sessions.find? (fun name => name == "") = none := by
    rw [List.find?_eq_none]
    intro x hx
    simp only [beq_iff_eq]
    rintro rfl
    exact h hx
  have hu : ("_" ++ "" : String) = "_" := rfl
  have hmain : find_session sessions "" =
      (match sessions.find? (fun name => pyEndsWith name "_") with
       | some name => some name
       | none => sessions.head?) := by
    rcases hf2 : sessions.find? (fun name => pyEndsWith name "_") with _ | n
    · simp only [find_session, h1, hu, hf2, find?_empty_token_eq_head]
    · simp only [find_session, h1, hu, hf2]
  refine ⟨hmain, ?_⟩
  rw [hmain]
  cases sessions with
  | nil => simp
  | cons a t =>
    rcases hf2 : (a :: t).find? (fun name => pyEndsWith name "_") with _ | n <;>
      simp [hf2]

/-- Witness for C10: a one-name registry with no trailing underscore
resolves the empty token to its only (first) name. -/
theorem find_session_empty_token_witness :
    find_session ["alpha"] "" = some "alpha" :=
  ((find_session_empty_token ["alpha"] (by decide)).1).trans (by decide)
